import Mathlib

/-!
# Verification of the SQL Elastic Pool resource adapter

A shallow embedding of `azurerm/resource_arm_sql_elasticpool.go` and proofs of
the specified properties of its CRUD operations.

Conventions of the embedding:
* Go strings are Lean `String`s; `*T` pointer fields become `Option` values,
  and dereferencing a `nil` pointer is an explicit `panic` outcome.
* The mutable Terraform attribute bag (`*schema.ResourceData`) is an explicit
  `ResourceData` value threaded through each operation; `d.Set`/`d.SetId`
  return the updated bag.
* The Azure SDK client is a record of functions (`SqlClient`); each lifecycle
  operation takes it as a parameter, standing for the handle pulled out of the
  untyped `meta` container in the Go code.
* `fmt.Errorf` messages are reproduced as the literal strings the code builds.
* Go `int32` narrowing conversions are made explicit with `int32ofInt`.
-/

namespace ElasticPool

/-- A Terraform attribute value.  The schema of this resource only holds
strings, ints and the tag map, so these three constructors cover every value
the adapter reads or writes. -/
inductive Attr where
  | str (s : String)
  | int (n : Int)
  | tags (t : List (String × String))
deriving DecidableEq, Repr

/-- Go's zero-value test used by `schema.ResourceData.GetOk`: an attribute is
"zero" when it is the empty string, the integer `0`, or the empty map. -/
def Attr.isZero : Attr → Bool
  | .str s => s = ""
  | .int n => n = 0
  | .tags t => t.isEmpty

/-- The Go type assertion `v.(int)`.  The schema types each key, so in the
adapter this assertion only ever sees ints; the embedding makes it total with
`0` for the impossible cases. -/
def Attr.asInt : Attr → Int
  | .int n => n
  | _ => 0

/-- The Go type assertion `v.(string)`, total like `Attr.asInt`. -/
def Attr.asString : Attr → String
  | .str s => s
  | _ => ""

/-- The mutable attribute bag `*schema.ResourceData`: the durable identifier
(`d.Id()` / `d.SetId`) plus the named attributes. -/
structure ResourceData where
  id : String
  attrs : List (String × Attr)
deriving DecidableEq, Repr

/-- Association-list update used by `d.Set`. -/
def setAttr : List (String × Attr) → String → Attr → List (String × Attr)
  | [], k, v => [(k, v)]
  | (k', v') :: rest, k, v =>
    if k' = k then (k, v) :: rest else (k', v') :: setAttr rest k v

/-- `d.Set(k, v)`. -/
def ResourceData.set (d : ResourceData) (k : String) (v : Attr) : ResourceData :=
  { d with attrs := setAttr d.attrs k v }

/-- `d.SetId(s)`. -/
def ResourceData.setId (d : ResourceData) (s : String) : ResourceData :=
  { d with id := s }

/-- `d.Get(k).(string)`: the value when the key holds a string, otherwise the
zero value `""`. -/
def ResourceData.getString (d : ResourceData) (k : String) : String :=
  match d.attrs.lookup k with
  | some (.str s) => s
  | _ => ""

/-- `d.Get(k).(int)`: the value when the key holds an int, otherwise `0`. -/
def ResourceData.getInt (d : ResourceData) (k : String) : Int :=
  match d.attrs.lookup k with
  | some (.int n) => n
  | _ => 0

/-- `d.Get(k).(map[string]interface{})` for the tag map. -/
def ResourceData.getTags (d : ResourceData) (k : String) : List (String × String) :=
  match d.attrs.lookup k with
  | some (.tags t) => t
  | _ => []

/-- `d.GetOk(k)`: `some v` exactly when the key is present with a non-zero
value.  A key explicitly set to its zero value is indistinguishable from an
absent key — this is the documented tri-state conflation of the framework. -/
def ResourceData.getOk (d : ResourceData) (k : String) : Option Attr :=
  match d.attrs.lookup k with
  | none => none
  | some v => if v.isZero then none else some v

/-- Go `int32(n)` narrowing: wrap into `[-2^31, 2^31)`. -/
def int32ofInt (n : Int) : Int :=
  (n + 2 ^ 31) % 2 ^ 32 - 2 ^ 31

/-- `sql.ElasticPoolProperties` from the Azure SDK: the request/response
property container.  `Edition` is a bare string type in the SDK; the four
sizing fields and the creation date are pointers. The creation date is carried
as its RFC3339 text. -/
structure ElasticPoolProperties where
  edition : String
  dtu : Option Int
  databaseDtuMin : Option Int
  databaseDtuMax : Option Int
  storageMB : Option Int
  creationDate : Option String
deriving DecidableEq, Repr

/-- `sql.ElasticPool`: the API resource shape. -/
structure SqlElasticPool where
  id : Option String
  name : Option String
  location : Option String
  elasticPoolProperties : Option ElasticPoolProperties
  tags : List (String × String)
deriving DecidableEq, Repr

/-- The SDK edition constant `sql.ElasticPoolEditionBasic`. -/
def ElasticPoolEditionBasic : String := "Basic"

/-- The SDK edition constant `sql.ElasticPoolEditionStandard`. -/
def ElasticPoolEditionStandard : String := "Standard"

/-- The SDK edition constant `sql.ElasticPoolEditionPremium`. -/
def ElasticPoolEditionPremium : String := "Premium"

/-- `validation.StringInSlice(valid, ignoreCase)`: accept a string exactly
when it occurs in the allow-list, case-insensitively when asked. -/
def stringInSlice (valid : List String) (ignoreCase : Bool) (v : String) : Bool :=
  valid.any fun s => v = s || (ignoreCase && v.toLower = s.toLower)

/-- `validateSqlElasticPoolEdition()`: the schema validator for `edition`,
`StringInSlice([Basic, Standard, Premium], false)`.  `true` means the value
is accepted (the Go validator returns no errors). -/
def validateSqlElasticPoolEdition (v : String) : Bool :=
  stringInSlice
    [ElasticPoolEditionBasic, ElasticPoolEditionStandard, ElasticPoolEditionPremium]
    false v

/-- `getArmSqlElasticPoolProperties(d)`: build the request property payload.
Edition and DTU always come from the bag; the three optional sizing fields are
filled only when `GetOk` reports them. -/
def getArmSqlElasticPoolProperties (d : ResourceData) : ElasticPoolProperties :=
  let edition := d.getString "edition"
  let dtu := int32ofInt (d.getInt "dtu")
  let props : ElasticPoolProperties :=
    { edition := edition, dtu := some dtu, databaseDtuMin := none,
      databaseDtuMax := none, storageMB := none, creationDate := none }
  let props :=
    match d.getOk "db_dtu_min" with
    | some v => { props with databaseDtuMin := some (int32ofInt v.asInt) }
    | none => props
  let props :=
    match d.getOk "db_dtu_max" with
    | some v => { props with databaseDtuMax := some (int32ofInt v.asInt) }
    | none => props
  let props :=
    match d.getOk "pool_size" with
    | some v => { props with storageMB := some (int32ofInt v.asInt) }
    | none => props
  props

/-! ## Composite identifier parsing

`parseArmSqlElasticPoolId` is in the source; the helper `parseAzureResourceID`
it delegates to lives elsewhere in the repository, so it is modelled from the
spec here (section 6: "a composite resource path string containing
resource-group, server, and pool-name segments, parsed with a fixed
path-segment extraction rule"). -/

/-- Split a character list at every `/`, keeping (possibly empty) segments. -/
def splitSeg : List Char → List (List Char)
  | [] => [[]]
  | c :: cs =>
    match splitSeg cs with
    | [] => [[]]
    | s :: ss => if c = '/' then [] :: s :: ss else (c :: s) :: ss

/-- Split a string at every `/`. -/
def splitOnSlash (s : String) : List String :=
  (splitSeg s.toList).map List.asString

/-- Group a segment list into key/value pairs, rejecting odd-length lists and
empty keys or values (a malformed identifier). -/
def pairUp : List String → Option (List (String × String))
  | [] => some []
  | [_] => none
  | k :: v :: rest =>
    if k = "" ∨ v = "" then none
    else (pairUp rest).map fun ps => (k, v) :: ps

/-- The parsed form of an Azure resource identifier: the subscription, the
resource group, and the remaining path as key/value segments. -/
structure ResourceID where
  subscriptionID : String
  resourceGroup : String
  path : List (String × String)
deriving DecidableEq, Repr

/-- Modelled from the spec: `parseAzureResourceID` is code of this repository
outside `src/`.  Per the spec the identifier is an absolute path of
alternating key/value segments (`/subscriptions/<id>/resourceGroups/<rg>/...`)
read with a fixed extraction rule; a path that is not of this shape is a
malformed identifier and a parse error. -/
def parseAzureResourceID (id : String) : Except String ResourceID :=
  match splitOnSlash id with
  | "" :: components =>
    match pairUp components with
    | none => Except.error ("the number of path segments is not divisible by 2 in " ++ id)
    | some kvs =>
      match kvs.lookup "subscriptions" with
      | none => Except.error ("no subscription ID found in " ++ id)
      | some sub =>
        Except.ok
          { subscriptionID := sub,
            resourceGroup := (kvs.lookup "resourceGroups").getD "",
            path := kvs }
  | _ => Except.error ("the resource id does not start with / in " ++ id)

/-- `parseArmSqlElasticPoolId(id)`: wrap any parse failure with context, then
project the resource group and the `servers` / `elasticPools` path segments
(Go map indexing yields `""` for an absent key). -/
def parseArmSqlElasticPoolId (sqlElasticPoolId : String) :
    Except String (String × String × String) :=
  match parseAzureResourceID sqlElasticPoolId with
  | Except.error e =>
    Except.error
      ("[ERROR] Unable to parse SQL ElasticPool ID \"" ++ sqlElasticPoolId ++ "\": " ++ e)
  | Except.ok id =>
    Except.ok
      (id.resourceGroup, (id.path.lookup "servers").getD "",
        (id.path.lookup "elasticPools").getD "")

/-- Modelled from the spec: serialization of the composite identifier is done
by the remote API provider, not by code under `src/`.  The spec fixes the
pattern: the `servers/<name>/elasticPools/<name>` segments embedded in the
longer `/subscriptions/.../resourceGroups/...` path. -/
def serializeSqlElasticPoolId (sub resGroup serverName poolName : String) : String :=
  "/subscriptions/" ++ sub ++ "/resourceGroups/" ++ resGroup ++
    "/providers/Microsoft.Sql/servers/" ++ serverName ++ "/elasticPools/" ++ poolName

/-! ## The API client and the lifecycle operations -/

/-- The outcome of `client.Get`: the response body together with the Go error
value and whether the attached HTTP response was a 404
(`utils.ResponseWasNotFound(resp.Response)`); the body is available even when
the call errs, as in Go. -/
structure GetOutcome where
  pool : SqlElasticPool
  err : Option String
  wasNotFound : Bool
deriving Repr

/-- The future returned by the asynchronous `CreateOrUpdate`:
`WaitForCompletion` either succeeds or yields an error. -/
structure SqlFuture where
  waitErr : Option String
deriving DecidableEq, Repr

/-- `sqlElasticPoolsClient`: the Azure SDK client handle, as a record of the
three remote operations the adapter invokes, each addressed by the
(resource group, server, pool) triple. `delete` yields the call's error
value (`none` on success). -/
structure SqlClient where
  createOrUpdate : String → String → String → SqlElasticPool → Except String SqlFuture
  get : String → String → String → GetOutcome
  delete : String → String → String → Option String

/-- The result of running one lifecycle operation: the Go return value
(`nil` / an error / a runtime panic from a nil dereference) together with the
attribute bag as the operation leaves it. -/
inductive RunOutcome where
  | ok (d : ResourceData)
  | error (msg : String) (d : ResourceData)
  | panic (d : ResourceData)
deriving DecidableEq, Repr

/-- Whether an outcome is the nil-dereference panic. -/
def RunOutcome.isPanic : RunOutcome → Bool
  | .panic _ => true
  | _ => false

/-- Modelled from the spec: `expandTags` is code of this repository outside
`src/`; per the spec it converts the local tag mapping into the API
representation, so on the association-list embedding it is the identity. -/
def expandTags (t : List (String × String)) : List (String × String) := t

/-- Modelled from the spec: `flattenAndSetTags` is code of this repository
outside `src/`; per the spec it flattens the API tag representation into the
local mapping form and stores it under `tags`. -/
def flattenAndSetTags (d : ResourceData) (tags : List (String × String)) : ResourceData :=
  d.set "tags" (.tags tags)

/-- Modelled from the spec: `azureRMNormalizeLocation` is code of this
repository outside `src/`; per the spec the location is normalized to a
canonical casing/format (lower case, no spaces). -/
def azureRMNormalizeLocation (s : String) : String :=
  ((s.toList.map Char.toLower).filter fun c => c ≠ ' ').asString

/-- `resourceArmSqlElasticPoolRead`: parse the stored identifier, issue the
remote get, convert a not-found response into clearing the identifier, wrap
any other error, and otherwise write the normalized response fields back into
the bag.  The Go code dereferences `resp.Location`, `elasticPool.Dtu`,
`elasticPool.DatabaseDtuMin`, `elasticPool.DatabaseDtuMax` and
`elasticPool.StorageMB` without nil checks; those dereferences are the
explicit `panic` outcomes.  Only `CreationDate` is nil-checked. -/
def resourceArmSqlElasticPoolRead (client : SqlClient) (d : ResourceData) : RunOutcome :=
  match parseArmSqlElasticPoolId d.id with
  | Except.error e => .error e d
  | Except.ok (resGroup, serverName, name) =>
    let resp := client.get resGroup serverName name
    match resp.err with
    | some errMsg =>
      if resp.wasNotFound then .ok (d.setId "")
      else .error ("Error making Read request on Sql Elastic Pool " ++ name ++ ": " ++ errMsg) d
    | none =>
      let d := d.set "name" (.str ((resp.pool.name).getD ""))
      let d := d.set "resource_group_name" (.str resGroup)
      match resp.pool.location with
      | none => .panic d
      | some loc =>
        let d := d.set "location" (.str (azureRMNormalizeLocation loc))
        let d := d.set "server_name" (.str serverName)
        match resp.pool.elasticPoolProperties with
        | none => .ok (flattenAndSetTags d resp.pool.tags)
        | some elasticPool =>
          let d := d.set "edition" (.str elasticPool.edition)
          match elasticPool.dtu with
          | none => .panic d
          | some dtu =>
            let d := d.set "dtu" (.int dtu)
            match elasticPool.databaseDtuMin with
            | none => .panic d
            | some dtuMin =>
              let d := d.set "db_dtu_min" (.int dtuMin)
              match elasticPool.databaseDtuMax with
              | none => .panic d
              | some dtuMax =>
                let d := d.set "db_dtu_max" (.int dtuMax)
                match elasticPool.storageMB with
                | none => .panic d
                | some storage =>
                  let d := d.set "pool_size" (.int storage)
                  let d :=
                    match elasticPool.creationDate with
                    | none => d
                    | some date => d.set "creation_date" (.str date)
                  .ok (flattenAndSetTags d resp.pool.tags)

/-- The `sql.ElasticPool` request body Create builds from the bag before
calling `CreateOrUpdate`. -/
def createElasticPoolPayload (d : ResourceData) : SqlElasticPool :=
  { id := none,
    name := some (d.getString "name"),
    location := some (d.getString "location"),
    elasticPoolProperties := some (getArmSqlElasticPoolProperties d),
    tags := expandTags (d.getTags "tags") }

/-- `resourceArmSqlElasticPoolCreate`: build the payload, invoke the
asynchronous create-or-update, block on its completion, re-fetch the resource,
fail loudly when the fetched identifier is absent, and otherwise assign the
identifier and delegate to Read. -/
def resourceArmSqlElasticPoolCreate (client : SqlClient) (d : ResourceData) : RunOutcome :=
  let name := d.getString "name"
  let serverName := d.getString "server_name"
  let resGroup := d.getString "resource_group_name"
  match client.createOrUpdate resGroup serverName name (createElasticPoolPayload d) with
  | Except.error e => .error e d
  | Except.ok future =>
    match future.waitErr with
    | some e => .error e d
    | none =>
      let read := client.get resGroup serverName name
      match read.err with
      | some e => .error e d
      | none =>
        match read.pool.id with
        | none =>
          .error ("Cannot read SQL ElasticPool \"" ++ name ++ "\" (resource group \"" ++
            resGroup ++ "\") ID") d
        | some theId => resourceArmSqlElasticPoolRead client (d.setId theId)

/-- `resourceArmSqlElasticPoolDelete`: parse the stored identifier and issue
the remote delete, returning its error value unchanged.  The second component
records the remote delete calls the operation issued, so that "exactly one
call with the parsed triple" is a statement of the embedding. -/
def resourceArmSqlElasticPoolDelete (client : SqlClient) (d : ResourceData) :
    RunOutcome × List (String × String × String) :=
  match parseArmSqlElasticPoolId d.id with
  | Except.error e => (.error e d, [])
  | Except.ok (resGroup, serverName, name) =>
    match client.delete resGroup serverName name with
    | some e => (.error e d, [(resGroup, serverName, name)])
    | none => (.ok d, [(resGroup, serverName, name)])

/-- The `schema.Resource` value returned by `resourceArmSqlElasticPool()`:
the four lifecycle handlers (Update is the same function as Create) and the
schema's validators (`edition` is the only field with one). -/
structure Resource where
  create : SqlClient → ResourceData → RunOutcome
  read : SqlClient → ResourceData → RunOutcome
  update : SqlClient → ResourceData → RunOutcome
  delete : SqlClient → ResourceData → RunOutcome × List (String × String × String)
  validateFuncs : List (String × (String → Bool))

/-- `resourceArmSqlElasticPool()`. -/
def resourceArmSqlElasticPool : Resource :=
  { create := resourceArmSqlElasticPoolCreate,
    read := resourceArmSqlElasticPoolRead,
    update := resourceArmSqlElasticPoolCreate,
    delete := resourceArmSqlElasticPoolDelete,
    validateFuncs := [("edition", validateSqlElasticPoolEdition)] }

/-- The disjunction of the four failure stages of Create that precede the
`d.SetId` call: the create-or-update request fails, waiting for completion
fails, the re-fetch fails, or the re-fetched identifier is absent. -/
def createFailsEarly (client : SqlClient) (d : ResourceData) : Prop :=
  (∃ e, client.createOrUpdate (d.getString "resource_group_name") (d.getString "server_name")
      (d.getString "name") (createElasticPoolPayload d) = Except.error e) ∨
  (∃ f e, client.createOrUpdate (d.getString "resource_group_name") (d.getString "server_name")
      (d.getString "name") (createElasticPoolPayload d) = Except.ok f ∧ f.waitErr = some e) ∨
  (∃ f e, client.createOrUpdate (d.getString "resource_group_name") (d.getString "server_name")
      (d.getString "name") (createElasticPoolPayload d) = Except.ok f ∧ f.waitErr = none ∧
    (client.get (d.getString "resource_group_name") (d.getString "server_name")
      (d.getString "name")).err = some e) ∨
  (∃ f, client.createOrUpdate (d.getString "resource_group_name") (d.getString "server_name")
      (d.getString "name") (createElasticPoolPayload d) = Except.ok f ∧ f.waitErr = none ∧
    (client.get (d.getString "resource_group_name") (d.getString "server_name")
      (d.getString "name")).err = none ∧
    (client.get (d.getString "resource_group_name") (d.getString "server_name")
      (d.getString "name")).pool.id = none)

/-! ## Concrete fixtures used by witnesses and counterexamples -/

/-- A well-formed composite identifier for the pool `pool1` on server `srv1`
in resource group `rg1`. -/
def sampleId : String :=
  serializeSqlElasticPoolId "sub1" "rg1" "srv1" "pool1"

/-- An attribute bag holding the sample identifier and the required fields. -/
def sampleData : ResourceData :=
  { id := sampleId,
    attrs := [("name", .str "pool1"), ("server_name", .str "srv1"),
      ("location", .str "westus"), ("resource_group_name", .str "rg1"),
      ("edition", .str "Standard"), ("dtu", .int 100)] }

/-- A fully populated API response body for the sample pool. -/
def samplePool : SqlElasticPool :=
  { id := some sampleId, name := some "pool1", location := some "westus",
    elasticPoolProperties := some
      { edition := "Standard", dtu := some 100, databaseDtuMin := some 0,
        databaseDtuMax := some 100, storageMB := some 5000,
        creationDate := some "2024-01-01T00:00:00Z" },
    tags := [] }

/-- A client whose get yields a 404 not-found response. -/
def notFoundClient : SqlClient :=
  { createOrUpdate := fun _ _ _ _ => Except.ok ⟨none⟩,
    get := fun _ _ _ => { pool := samplePool, err := some "StatusCode=404", wasNotFound := true },
    delete := fun _ _ _ => none }

/-- A client whose get fails with a generic (non-404) API error. -/
def apiErrorClient : SqlClient :=
  { createOrUpdate := fun _ _ _ _ => Except.ok ⟨none⟩,
    get := fun _ _ _ => { pool := samplePool, err := some "StatusCode=500", wasNotFound := false },
    delete := fun _ _ _ => none }

/-- A client whose get succeeds with a non-nil properties container whose
`Dtu` pointer is nil. -/
def nilDtuClient : SqlClient :=
  { createOrUpdate := fun _ _ _ _ => Except.ok ⟨none⟩,
    get := fun _ _ _ =>
      { pool :=
          { id := some sampleId, name := some "pool1", location := some "westus",
            elasticPoolProperties := some
              { edition := "Standard", dtu := none, databaseDtuMin := some 0,
                databaseDtuMax := some 100, storageMB := some 5000,
                creationDate := some "2024-01-01T00:00:00Z" },
            tags := [] },
        err := none, wasNotFound := false },
    delete := fun _ _ _ => none }

/-- A client whose create-or-update and get succeed but whose get response
carries no identifier. -/
def missingIdClient : SqlClient :=
  { createOrUpdate := fun _ _ _ _ => Except.ok ⟨none⟩,
    get := fun _ _ _ =>
      { pool :=
          { id := none, name := some "pool1", location := some "westus",
            elasticPoolProperties := none, tags := [] },
        err := none, wasNotFound := false },
    delete := fun _ _ _ => none }

/-- A client whose create-or-update request fails outright. -/
def failingCreateClient : SqlClient :=
  { createOrUpdate := fun _ _ _ _ => Except.error "quota exceeded",
    get := fun _ _ _ => { pool := samplePool, err := none, wasNotFound := false },
    delete := fun _ _ _ => none }

/-- A client whose delete succeeds. -/
def okDeleteClient : SqlClient :=
  { createOrUpdate := fun _ _ _ _ => Except.ok ⟨none⟩,
    get := fun _ _ _ => { pool := samplePool, err := none, wasNotFound := false },
    delete := fun _ _ _ => none }

/-- A bag whose `db_dtu_min` is explicitly set to `0`. -/
def propsZeroMinData : ResourceData :=
  { id := "",
    attrs := [("name", .str "pool1"), ("edition", .str "Standard"),
      ("dtu", .int 100), ("db_dtu_min", .int 0)] }

/-- A bag with `db_dtu_min` set to `5`, `pool_size` set to `0`, and
`db_dtu_max` absent. -/
def propsMixedData : ResourceData :=
  { id := "",
    attrs := [("edition", .str "Standard"), ("dtu", .int 100),
      ("db_dtu_min", .int 5), ("pool_size", .int 0)] }

/-! ## Helper lemmas -/

theorem splitSeg_ne_nil (l : List Char) : splitSeg l ≠ [] := by
  cases l with
  | nil => simp [splitSeg]
  | cons c cs =>
    simp only [splitSeg]
    cases h : splitSeg cs with
    | nil => simp
    | cons s ss =>
      by_cases hc : c = '/' <;> simp [hc]

theorem splitSeg_slash (l : List Char) : splitSeg ('/' :: l) = [] :: splitSeg l := by
  simp only [splitSeg]
  cases h : splitSeg l with
  | nil => exact absurd h (splitSeg_ne_nil l)
  | cons s ss => simp

theorem splitSeg_no_slash (l : List Char) (h : '/' ∉ l) : splitSeg l = [l] := by
  induction l with
  | nil => rfl
  | cons c cs ih =>
    simp only [List.mem_cons, not_or] at h
    simp only [splitSeg, ih h.2]
    have hc : ¬ c = '/' := fun hcc => h.1 hcc.symm
    simp [hc]

theorem splitSeg_append (a b : List Char) (h : '/' ∉ a) :
    splitSeg (a ++ '/' :: b) = a :: splitSeg b := by
  induction a with
  | nil => simpa using splitSeg_slash b
  | cons c cs ih =>
    simp only [List.mem_cons, not_or] at h
    have hc : ¬ c = '/' := fun hcc => h.1 hcc.symm
    rw [List.cons_append, splitSeg, ih h.2]
    simp [hc]

theorem asString_data (s : String) : s.data.asString = s :=
  String.asString_toList s

theorem toList_serialize (sub rg srv pool : String) :
    (serializeSqlElasticPoolId sub rg srv pool).toList =
      '/' :: ("subscriptions".toList ++ '/' :: (sub.toList ++ '/' ::
        ("resourceGroups".toList ++ '/' :: (rg.toList ++ '/' ::
        ("providers".toList ++ '/' :: ("Microsoft.Sql".toList ++ '/' ::
        ("servers".toList ++ '/' :: (srv.toList ++ '/' ::
        ("elasticPools".toList ++ '/' :: pool.toList))))))))) := by
  show (serializeSqlElasticPoolId sub rg srv pool).data = _
  simp only [serializeSqlElasticPoolId, String.data_append, String.toList]
  simp [List.append_assoc]

theorem splitOnSlash_serialize (sub rg srv pool : String)
    (hsub : '/' ∉ sub.toList) (hrg : '/' ∉ rg.toList)
    (hsrv : '/' ∉ srv.toList) (hpool : '/' ∉ pool.toList) :
    splitOnSlash (serializeSqlElasticPoolId sub rg srv pool) =
      ["", "subscriptions", sub, "resourceGroups", rg, "providers", "Microsoft.Sql",
        "servers", srv, "elasticPools", pool] := by
  unfold splitOnSlash
  rw [toList_serialize, splitSeg_slash,
      splitSeg_append _ _ (by decide), splitSeg_append _ _ hsub,
      splitSeg_append _ _ (by decide), splitSeg_append _ _ hrg,
      splitSeg_append _ _ (by decide), splitSeg_append _ _ (by decide),
      splitSeg_append _ _ (by decide), splitSeg_append _ _ hsrv,
      splitSeg_append _ _ (by decide), splitSeg_no_slash _ hpool]
  simp [asString_data]
  exact ⟨rfl, rfl, rfl, rfl, rfl, rfl, rfl⟩

theorem getOk_of_lookup_none (d : ResourceData) (k : String)
    (h : d.attrs.lookup k = none) : d.getOk k = none := by
  unfold ResourceData.getOk
  rw [h]

theorem getOk_of_lookup_int_zero (d : ResourceData) (k : String)
    (h : d.attrs.lookup k = some (.int 0)) : d.getOk k = none := by
  unfold ResourceData.getOk
  rw [h]
  rfl

theorem getOk_of_lookup_int_ne_zero (d : ResourceData) (k : String) (n : Int)
    (hn : n ≠ 0) (h : d.attrs.lookup k = some (.int n)) : d.getOk k = some (.int n) := by
  unfold ResourceData.getOk
  rw [h]
  simp [Attr.isZero, hn]

theorem props_edition_proj (d : ResourceData) :
    (getArmSqlElasticPoolProperties d).edition = d.getString "edition" := by
  unfold getArmSqlElasticPoolProperties
  cases d.getOk "db_dtu_min" <;> cases d.getOk "db_dtu_max" <;>
    cases d.getOk "pool_size" <;> rfl

theorem props_dtu_proj (d : ResourceData) :
    (getArmSqlElasticPoolProperties d).dtu = some (int32ofInt (d.getInt "dtu")) := by
  unfold getArmSqlElasticPoolProperties
  cases d.getOk "db_dtu_min" <;> cases d.getOk "db_dtu_max" <;>
    cases d.getOk "pool_size" <;> rfl

theorem props_dtuMin_proj (d : ResourceData) :
    (getArmSqlElasticPoolProperties d).databaseDtuMin =
      match d.getOk "db_dtu_min" with
      | some v => some (int32ofInt v.asInt)
      | none => none := by
  unfold getArmSqlElasticPoolProperties
  cases d.getOk "db_dtu_min" <;> cases d.getOk "db_dtu_max" <;>
    cases d.getOk "pool_size" <;> rfl

theorem props_dtuMax_proj (d : ResourceData) :
    (getArmSqlElasticPoolProperties d).databaseDtuMax =
      match d.getOk "db_dtu_max" with
      | some v => some (int32ofInt v.asInt)
      | none => none := by
  unfold getArmSqlElasticPoolProperties
  cases d.getOk "db_dtu_min" <;> cases d.getOk "db_dtu_max" <;>
    cases d.getOk "pool_size" <;> rfl

theorem props_storage_proj (d : ResourceData) :
    (getArmSqlElasticPoolProperties d).storageMB =
      match d.getOk "pool_size" with
      | some v => some (int32ofInt v.asInt)
      | none => none := by
  unfold getArmSqlElasticPoolProperties
  cases d.getOk "db_dtu_min" <;> cases d.getOk "db_dtu_max" <;>
    cases d.getOk "pool_size" <;> rfl

/-! ## Claim theorems -/

/-- C1: a Read whose remote get returns a not-found response clears the local
identifier and returns success. -/
theorem read_notFound_clears_id (client : SqlClient) (d : ResourceData)
    (resGroup serverName name errMsg : String)
    (hparse : parseArmSqlElasticPoolId d.id = Except.ok (resGroup, serverName, name))
    (herr : (client.get resGroup serverName name).err = some errMsg)
    (hnf : (client.get resGroup serverName name).wasNotFound = true) :
    resourceArmSqlElasticPoolRead client d = .ok (d.setId "") := by
  unfold resourceArmSqlElasticPoolRead
  rw [hparse]
  simp [herr, hnf]

/-- C1 witness. -/
theorem read_notFound_clears_id_witness :
    resourceArmSqlElasticPoolRead notFoundClient sampleData = .ok (sampleData.setId "") :=
  read_notFound_clears_id notFoundClient sampleData "rg1" "srv1" "pool1" "StatusCode=404"
    rfl rfl rfl

/-- C7: a Read whose remote get fails with a non-not-found error returns the
wrapped error and leaves the bag unchanged. -/
theorem read_apiError_propagates (client : SqlClient) (d : ResourceData)
    (resGroup serverName name errMsg : String)
    (hparse : parseArmSqlElasticPoolId d.id = Except.ok (resGroup, serverName, name))
    (herr : (client.get resGroup serverName name).err = some errMsg)
    (hnf : (client.get resGroup serverName name).wasNotFound = false) :
    resourceArmSqlElasticPoolRead client d =
      .error ("Error making Read request on Sql Elastic Pool " ++ name ++ ": " ++ errMsg) d := by
  unfold resourceArmSqlElasticPoolRead
  rw [hparse]
  simp [herr, hnf]

/-- C7 witness. -/
theorem read_apiError_propagates_witness :
    resourceArmSqlElasticPoolRead apiErrorClient sampleData =
      .error ("Error making Read request on Sql Elastic Pool pool1: StatusCode=500")
        sampleData :=
  read_apiError_propagates apiErrorClient sampleData "rg1" "srv1" "pool1" "StatusCode=500"
    rfl rfl rfl

/-- C4: the code crashes when the properties container is non-nil but its
`Dtu` pointer is nil. -/
theorem read_nil_dtu_panics :
    (resourceArmSqlElasticPoolRead nilDtuClient sampleData).isPanic = true := by
  rfl

/-- C6: when create-or-update and the re-fetch succeed but the fetched
identifier is absent, Create fails with the consistency error naming the pool
and the resource group. -/
theorem create_missing_id_fails (client : SqlClient) (d : ResourceData) (future : SqlFuture)
    (hco : client.createOrUpdate (d.getString "resource_group_name")
        (d.getString "server_name") (d.getString "name") (createElasticPoolPayload d) =
        Except.ok future)
    (hwait : future.waitErr = none)
    (hget : (client.get (d.getString "resource_group_name") (d.getString "server_name")
        (d.getString "name")).err = none)
    (hid : (client.get (d.getString "resource_group_name") (d.getString "server_name")
        (d.getString "name")).pool.id = none) :
    resourceArmSqlElasticPoolCreate client d =
      .error ("Cannot read SQL ElasticPool \"" ++ d.getString "name" ++
        "\" (resource group \"" ++ d.getString "resource_group_name" ++ "\") ID") d := by
  unfold resourceArmSqlElasticPoolCreate
  simp [hco, hwait, hget, hid]

/-- C6 witness. -/
theorem create_missing_id_fails_witness :
    resourceArmSqlElasticPoolCreate missingIdClient sampleData =
      .error ("Cannot read SQL ElasticPool \"pool1\" (resource group \"rg1\") ID")
        sampleData :=
  create_missing_id_fails missingIdClient sampleData ⟨none⟩ rfl rfl rfl rfl

/-- C10: when Create fails at any of the four stages preceding the identifier
assignment, it returns an error with the bag — identifier included —
unchanged. -/
theorem create_error_leaves_id_unset (client : SqlClient) (d : ResourceData)
    (h : createFailsEarly client d) :
    ∃ msg, resourceArmSqlElasticPoolCreate client d = .error msg d := by
  unfold resourceArmSqlElasticPoolCreate
  rcases h with ⟨e, he⟩ | ⟨f, e, hf, he⟩ | ⟨f, e, hf, hw, he⟩ | ⟨f, hf, hw, hg, hid⟩
  · exact ⟨e, by simp [he]⟩
  · exact ⟨e, by simp [hf, he]⟩
  · exact ⟨e, by simp [hf, hw, he]⟩
  · exact ⟨"Cannot read SQL ElasticPool \"" ++ d.getString "name" ++ "\" (resource group \"" ++
      d.getString "resource_group_name" ++ "\") ID", by simp [hf, hw, hg, hid]⟩

/-- C10 witness. -/
theorem create_error_leaves_id_unset_witness :
    ∃ msg, resourceArmSqlElasticPoolCreate failingCreateClient sampleData =
      .error msg sampleData :=
  create_error_leaves_id_unset failingCreateClient sampleData
    (Or.inl ⟨"quota exceeded", rfl⟩)

/-- C8: Update and Create are the same function. -/
theorem update_is_create :
    resourceArmSqlElasticPool.update = resourceArmSqlElasticPool.create := rfl

/-- C9: a well-formed identifier leads to exactly one remote delete call with
the parsed triple, whose error is returned unchanged and whose success is
success; a malformed identifier is a parse error before any remote call. -/
theorem delete_issues_one_call (client : SqlClient) (d : ResourceData) :
    (∀ e, parseArmSqlElasticPoolId d.id = Except.error e →
      resourceArmSqlElasticPoolDelete client d = (.error e d, [])) ∧
    (∀ resGroup serverName name,
      parseArmSqlElasticPoolId d.id = Except.ok (resGroup, serverName, name) →
      (resourceArmSqlElasticPoolDelete client d).2 = [(resGroup, serverName, name)] ∧
      (∀ e, client.delete resGroup serverName name = some e →
        (resourceArmSqlElasticPoolDelete client d).1 = .error e d) ∧
      (client.delete resGroup serverName name = none →
        (resourceArmSqlElasticPoolDelete client d).1 = .ok d)) := by
  constructor
  · intro e he
    unfold resourceArmSqlElasticPoolDelete
    rw [he]
  · intro resGroup serverName name hok
    unfold resourceArmSqlElasticPoolDelete
    rw [hok]
    refine ⟨?_, ?_, ?_⟩
    · cases hd : client.delete resGroup serverName name <;> simp [hd]
    · intro e he
      simp [he]
    · intro hnone
      simp [hnone]

/-- C9 witness. -/
theorem delete_issues_one_call_witness :
    (resourceArmSqlElasticPoolDelete okDeleteClient sampleData).2 =
      [("rg1", "srv1", "pool1")] ∧
    (resourceArmSqlElasticPoolDelete okDeleteClient sampleData).1 = .ok sampleData := by
  obtain ⟨-, hok⟩ := delete_issues_one_call okDeleteClient sampleData
  obtain ⟨htrace, -, hsucc⟩ := hok "rg1" "srv1" "pool1" rfl
  exact ⟨htrace, hsucc rfl⟩

/-- C2: serialize-then-parse is the identity on the addressing triple, for
segment names that are nonempty and free of the path separator. -/
theorem elasticPoolId_roundTrip (sub resGroup serverName poolName : String)
    (hsubNe : sub ≠ "") (hrgNe : resGroup ≠ "")
    (hsrvNe : serverName ≠ "") (hpoolNe : poolName ≠ "")
    (hsub : '/' ∉ sub.toList) (hrg : '/' ∉ resGroup.toList)
    (hsrv : '/' ∉ serverName.toList) (hpool : '/' ∉ poolName.toList) :
    parseArmSqlElasticPoolId (serializeSqlElasticPoolId sub resGroup serverName poolName) =
      Except.ok (resGroup, serverName, poolName) := by
  unfold parseArmSqlElasticPoolId parseAzureResourceID
  rw [splitOnSlash_serialize sub resGroup serverName poolName hsub hrg hsrv hpool]
  simp [pairUp, hsubNe, hrgNe, hsrvNe, hpoolNe, List.lookup]

/-- C2 witness. -/
theorem elasticPoolId_roundTrip_witness :
    parseArmSqlElasticPoolId (serializeSqlElasticPoolId "sub1" "rg1" "srv1" "pool1") =
      Except.ok ("rg1", "srv1", "pool1") :=
  elasticPoolId_roundTrip "sub1" "rg1" "srv1" "pool1"
    (by decide) (by decide) (by decide) (by decide)
    (by decide) (by decide) (by decide) (by decide)

/-- C5: the edition validator accepts exactly Basic, Standard and Premium. -/
theorem edition_validator_exact (v : String) :
    validateSqlElasticPoolEdition v = true ↔
      v = "Basic" ∨ v = "Standard" ∨ v = "Premium" := by
  simp [validateSqlElasticPoolEdition, stringInSlice, ElasticPoolEditionBasic,
    ElasticPoolEditionStandard, ElasticPoolEditionPremium]

/-- C3 counterexample: `db_dtu_min` explicitly set to `0` is omitted from the
payload, so presence in the payload is not equivalent to being explicitly
set. -/
theorem props_zero_min_omitted :
    propsZeroMinData.attrs.lookup "db_dtu_min" = some (.int 0) ∧
    (getArmSqlElasticPoolProperties propsZeroMinData).databaseDtuMin = none :=
  ⟨rfl, rfl⟩

/-- C3 amended: edition and DTU are always in the payload; each optional
sizing field is in the payload exactly when it is set to a non-zero value,
and a field that is absent or set to zero is omitted (nil). -/
theorem props_payload_amended (d : ResourceData) :
    (getArmSqlElasticPoolProperties d).edition = d.getString "edition" ∧
    (getArmSqlElasticPoolProperties d).dtu = some (int32ofInt (d.getInt "dtu")) ∧
    (d.attrs.lookup "db_dtu_min" = none →
      (getArmSqlElasticPoolProperties d).databaseDtuMin = none) ∧
    (d.attrs.lookup "db_dtu_min" = some (.int 0) →
      (getArmSqlElasticPoolProperties d).databaseDtuMin = none) ∧
    (∀ n : Int, n ≠ 0 → d.attrs.lookup "db_dtu_min" = some (.int n) →
      (getArmSqlElasticPoolProperties d).databaseDtuMin = some (int32ofInt n)) ∧
    (d.attrs.lookup "db_dtu_max" = none →
      (getArmSqlElasticPoolProperties d).databaseDtuMax = none) ∧
    (d.attrs.lookup "db_dtu_max" = some (.int 0) →
      (getArmSqlElasticPoolProperties d).databaseDtuMax = none) ∧
    (∀ n : Int, n ≠ 0 → d.attrs.lookup "db_dtu_max" = some (.int n) →
      (getArmSqlElasticPoolProperties d).databaseDtuMax = some (int32ofInt n)) ∧
    (d.attrs.lookup "pool_size" = none →
      (getArmSqlElasticPoolProperties d).storageMB = none) ∧
    (d.attrs.lookup "pool_size" = some (.int 0) →
      (getArmSqlElasticPoolProperties d).storageMB = none) ∧
    (∀ n : Int, n ≠ 0 → d.attrs.lookup "pool_size" = some (.int n) →
      (getArmSqlElasticPoolProperties d).storageMB = some (int32ofInt n)) := by
  refine ⟨props_edition_proj d, props_dtu_proj d, ?_, ?_, ?_, ?_, ?_, ?_, ?_, ?_, ?_⟩
  · intro h
    rw [props_dtuMin_proj, getOk_of_lookup_none d _ h]
  · intro h
    rw [props_dtuMin_proj, getOk_of_lookup_int_zero d _ h]
  · intro n hn h
    rw [props_dtuMin_proj, getOk_of_lookup_int_ne_zero d _ n hn h]
    rfl
  · intro h
    rw [props_dtuMax_proj, getOk_of_lookup_none d _ h]
  · intro h
    rw [props_dtuMax_proj, getOk_of_lookup_int_zero d _ h]
  · intro n hn h
    rw [props_dtuMax_proj, getOk_of_lookup_int_ne_zero d _ n hn h]
    rfl
  · intro h
    rw [props_storage_proj, getOk_of_lookup_none d _ h]
  · intro h
    rw [props_storage_proj, getOk_of_lookup_int_zero d _ h]
  · intro n hn h
    rw [props_storage_proj, getOk_of_lookup_int_ne_zero d _ n hn h]
    rfl

/-- C3 amended witness. -/
theorem props_payload_amended_witness :
    (getArmSqlElasticPoolProperties propsMixedData).databaseDtuMin =
      some (int32ofInt 5) ∧
    (getArmSqlElasticPoolProperties propsMixedData).databaseDtuMax = none ∧
    (getArmSqlElasticPoolProperties propsMixedData).storageMB = none := by
  obtain ⟨-, -, -, -, hminSome, hmaxNone, -, -, -, hszZero, -⟩ :=
    props_payload_amended propsMixedData
  exact ⟨hminSome 5 (by decide) rfl, hmaxNone rfl, hszZero rfl⟩

end ElasticPool
